import Mathlib

/-! The root command's pre-run gate of nsc, key-flag resolution and user edits.

A shallow embedding of `cmd/root.go` (`GetStoreForOperator`, `GetStore`,
`ResolveKeyFlag`, `rootCmd.PersistentPreRunE`) together with the edit-user
behaviour exercised by `cmd/edituser_test.go`, whose code is not at hand and
is modelled from the specification.

Go values are embedded as follows.

* A `*cobra.Command` is a record holding its address (pointer identity, used by
  `v == cmd`), its `Name()`, the `Name()` of its `Parent()` (absent when the
  parent pointer is nil) and its `SilenceUsage` flag.
* A Go `error` coming from a collaborator is its message; the errors the gate
  builds itself with `fmt.Errorf` are the constructors of `GateError`, and
  `GateError.Error` renders their text.
* A Go result pair `(value, error)` is a pair of options, nil being `none`;
  `store.LoadStore`, which returns either an error or a non-nil store, is an
  `Except`.
* Everything the gate reads from outside `root.go` (the file system, the key
  store, `os.Args`, the children of `addCmd`) is a field of `World`.
* The mutable state the gate can reach is `State`: the tool configuration
  behind `GetConfig()` and the command object.
-/

namespace Nsc

/-- A Go `error` produced by a collaborator, identified with its message. -/
abbrev GoError := String

/-- The fields of the tool configuration used by `GetStoreForOperator`. -/
structure ToolConfig where
  StoreRoot : String
  Operator : String
  Account : String
  deriving DecidableEq, Repr

/-- The operator claim as far as the gate looks at it: `c.Version`, a Go `int`. -/
structure OperatorClaims where
  Version : Int
  deriving DecidableEq, Repr

/-- A loaded `*store.Store`: `GetName()`, the `DefaultAccount` field and the
claim `ReadOperatorClaim()` yields (`none` when it yields a nil claim). -/
structure Store where
  Name : String
  DefaultAccount : String
  OperatorClaim : Option OperatorClaims
  deriving DecidableEq, Repr

/-- A `*cobra.Command`: its address, `Name()`, the name of `Parent()` (`none`
when `Parent()` is nil) and the `SilenceUsage` field. -/
structure Command where
  addr : Nat
  Name : String
  Parent : Option String
  SilenceUsage : Bool
  deriving DecidableEq, Repr

/-- The state reachable from the gate: the configuration behind `GetConfig()`
and the command it is run for. -/
structure State where
  config : ToolConfig
  cmd : Command
  deriving DecidableEq, Repr

/-- An `nkeys.KeyPair`, by its public key and its seed. -/
structure KeyPair where
  PublicKey : String
  Seed : String
  deriving DecidableEq, Repr

/-- Collaborators of `root.go` that live outside it. -/
structure World where
  /-- The program name `os.Args[0]`. -/
  args0 : String
  /-- The error of `IsValidDir(dir)`, if any. -/
  IsValidDir : String → Option GoError
  /-- The method `(*ToolConfig).SetDefaults()` as a transformer of the configuration. -/
  SetDefaults : ToolConfig → ToolConfig
  /-- The function `filepath.Join(a, b)`. -/
  Join : String → String → String
  /-- The function `store.LoadStore(fp)`: an error or a non-nil store. -/
  LoadStore : String → Except GoError Store
  /-- The Go pair `(bool, error)` returned by `store.KeysNeedMigration()`. -/
  KeysNeedMigration : Bool × Option GoError
  /-- The directory `store.GetKeysDir()`. -/
  GetKeysDir : String
  /-- The function `AbbrevHomePaths(p)`. -/
  AbbrevHomePaths : String → String
  /-- The addresses of the children of the `add` command, `addCmd.Commands()`. -/
  addCmdCommands : List Nat
  /-- The Go pair `(nkeys.KeyPair, error)` returned by `store.ResolveKey(ref)`. -/
  ResolveKey : String → Option KeyPair × Option GoError
  /-- The `%q` verb of `fmt` on a string. -/
  fmtQ : String → String
  /-- The `%#q` verb of `fmt` on a string. -/
  fmtSharpQ : String → String

/-- The package variable `ErrNoOperator`. -/
def ErrNoOperator : GoError := "set an operator -- 'nsc env -o operatorName'"

/-- The function `GetStoreForOperator(operator)`: the returned pair `(*store.Store, error)`
and the configuration afterwards (`config` is a pointer to the global
configuration, so the assignments to it persist). -/
def GetStoreForOperator (w : World) (operator : String) (config : ToolConfig) :
    (Option Store × Option GoError) × ToolConfig :=
  if config.StoreRoot = "" then
    ((none, some "no stores available"), config)
  else
    match w.IsValidDir config.StoreRoot with
    | some err => ((none, some err), config)
    | none =>
      let config := if operator ≠ "" then { config with Operator := operator } else config
      let config := if config.Operator = "" then w.SetDefaults config else config
      if config.Operator = "" then
        ((none, some ErrNoOperator), config)
      else
        let fp := w.Join config.StoreRoot config.Operator
        match w.LoadStore fp with
        | .error err => ((none, some err), config)
        | .ok ngsStore =>
          let ngsStore :=
            if config.Account ≠ "" then { ngsStore with DefaultAccount := config.Account }
            else ngsStore
          ((some ngsStore, none), config)

/-- The function `GetStore()`. -/
def GetStore (w : World) (config : ToolConfig) :
    (Option Store × Option GoError) × ToolConfig :=
  GetStoreForOperator w "" config

/-- The function `ResolveKeyFlag()` for a given value of the global `KeyPathFlag`. -/
def ResolveKeyFlag (w : World) (KeyPathFlag : String) : Option KeyPair × Option GoError :=
  if KeyPathFlag ≠ "" then
    match w.ResolveKey KeyPathFlag with
    | (_, some err) => (none, some err)
    | (kp, none) => (kp, none)
  else
    (none, none)

/-- The errors `rootCmd.PersistentPreRunE` can return. -/
inductive GateError where
  /-- Line 118: the store is newer than this tool. -/
  | storeTooNew (storeName : String) (version : Int) (prog : String)
  /-- Line 132: the store holds version 1 JWTs. -/
  | jwtV1Store (prog : String) (storeName : String)
  /-- Line 159: the error of `store.KeysNeedMigration()` passed on. -/
  | keysInspection (err : GoError)
  /-- Line 163: the key store has to be migrated. -/
  | keystoreNeedsMigration (keysDir : String) (prog : String)
  deriving DecidableEq, Repr

/-- The text of each error, as the `fmt.Errorf` calls build it. -/
def GateError.Error (w : World) : GateError → String
  | .storeTooNew storeName version prog =>
    "the store " ++ w.fmtSharpQ storeName ++ " is at version " ++ toString version
      ++ ". To upgrade nsc - type `" ++ prog ++ " update`"
  | .jwtV1Store prog storeName =>
    "This version of nsc only supports jwtV2. \n"
      ++ "If you are using a managed service, check your provider for \n"
      ++ "instructions on how to update your project. In most cases \n"
      ++ "all you need to do is:\n"
      ++ "\"" ++ prog ++ " add operator --force -u <url provided by your service>\"\n"
      ++ "\n"
      ++ "If your service is well known, such as Synadia's NGS:\n"
      ++ "\"" ++ prog ++ " add operator --force -u synadia\"\n"
      ++ "\n"
      ++ "If you are the operator, and you have your operator key, to \n"
      ++ "upgrade the v1 store " ++ w.fmtSharpQ storeName ++ " - type:\n"
      ++ "\"" ++ prog ++ " upgrade-jwt\"\n"
      ++ "\n"
      ++ "Alternatively you can downgrade' " ++ w.fmtQ prog
      ++ " to a compatible version using: \n"
      ++ "\"" ++ prog ++ " update --version 0.5.0\"\n"
  | .keysInspection err => err
  | .keystoreNeedsMigration keysDir prog =>
    "the keystore " ++ w.fmtSharpQ keysDir ++ " needs migration - type `" ++ prog
      ++ " keys migrate` to update"

/-- What a run of the gate ends in: `return nil`, `return err`, or the run-time
panic of calling `Name()` on a nil `Parent()`. -/
inductive Outcome where
  | ok
  | error (e : GateError)
  | nilDeref
  deriving DecidableEq, Repr

/-- Lines 121 to 129: the value of `allowCmdWithJWTV1Store` when it is tested. -/
def allowCmdWithJWTV1Store (w : World) (cmd : Command) : Bool :=
  let allow := cmd.Name == "upgrade-jwt" || cmd.Name == "env" || cmd.Name == "help"
    || cmd.Name == "update"
  if !allow && cmd.Name == "operator" then
    w.addCmdCommands.any (fun v => v == cmd.addr)
  else
    allow

/-- Lines 115 to 152, the store-version check: the error it returns, or `none`
when control reaches line 153. `got` is the store `GetStore()` returned. -/
def storeVersionCheck (w : World) (got : Option Store) (cmd : Command) : Option GateError :=
  match got with
  | none => none
  | some store =>
    match store.OperatorClaim with
    | none => none
    | some c =>
      if c.Version = 1 then
        if c.Version > 2 then
          some (.storeTooNew store.Name c.Version w.args0)
        else if c.Version = 1 then
          if !allowCmdWithJWTV1Store w cmd then
            some (.jwtV1Store w.args0 store.Name)
          else none
        else none
      else none

/-- Line 153: `cmd.Name() == "migrate" && cmd.Parent().Name() == "keys"`, `none`
when evaluating it dereferences a nil parent. -/
def isKeysMigrate (cmd : Command) : Option Bool :=
  if cmd.Name = "migrate" then
    match cmd.Parent with
    | none => none
    | some p => some (p == "keys")
  else
    some false

/-- Lines 153 to 166, the key-store check. -/
def keystoreCheck (w : World) (s : State) : Outcome × State :=
  match isKeysMigrate s.cmd with
  | none => (.nilDeref, s)
  | some true => (.ok, s)
  | some false =>
    match w.KeysNeedMigration with
    | (_, some err) => (.error (.keysInspection err), s)
    | (needsUpdate, none) =>
      if needsUpdate then
        (.error (.keystoreNeedsMigration (w.AbbrevHomePaths w.GetKeysDir) w.args0),
          { s with cmd := { s.cmd with SilenceUsage := true } })
      else
        (.ok, s)

/-- The gate `rootCmd.PersistentPreRunE(cmd, args)`: its outcome and the state
it leaves. -/
def PersistentPreRunE (w : World) (s : State) : Outcome × State :=
  let got := GetStore w s.config
  let s := { s with config := got.2 }
  match storeVersionCheck w got.1.1 s.cmd with
  | some e => (.error e, s)
  | none => keystoreCheck w s

/-- Whether an error of the gate comes from the key-store check (lines 157 to
163) rather than from the store-version check. -/
def GateError.fromKeystore : GateError → Bool
  | .keysInspection _ => true
  | .keystoreNeedsMigration _ _ => true
  | _ => false

/-- The commands cobra hands to the hook of `rootCmd`: `rootCmd` itself, whose
`Use` is `nsc`, or one of its descendants, which has a parent. -/
def Command.dispatched (cmd : Command) : Prop :=
  cmd.Parent = none → cmd.Name = "nsc"

instance (cmd : Command) : Decidable cmd.dispatched := by
  unfold Command.dispatched; infer_instance

/-- The text `needle` occurs in the text `hay`. -/
def containsText (hay needle : String) : Prop :=
  ∃ pre post : String, hay = pre ++ needle ++ post

/-! ## Editing a user claim

The `edit user` command is exercised by `edituser_test.go`; its code is
missing, and the definitions of this section follow the specification. -/

/-- The fields of a user claim that the edits below read or write. -/
structure UserClaims where
  Subject : String
  Issuer : String
  IssuerAccount : String
  Tags : List String
  deriving DecidableEq, Repr

/-- The fields of an account claim used when a user claim is signed. -/
structure AccountClaims where
  Subject : String
  SigningKeys : List String
  deriving DecidableEq, Repr

/-- Modelled from the spec: step 3 of the signing-key resolver, whose code
(the `edit user` command) is missing. If the resolved key's public identity
equals the account subject, `issuer` is the account subject and
`issuerAccount` is empty; otherwise `issuer` is the resolved public identity
and `issuerAccount` is the account subject. Returns `(issuer, issuerAccount)`. -/
def issuerFields (resolvedPublicIdentity accountSubject : String) : String × String :=
  if resolvedPublicIdentity = accountSubject then (accountSubject, "")
  else (resolvedPublicIdentity, accountSubject)

/-- Modelled from the spec: the last step of an edit, whose code (the
`edit user` command) is missing. After the operations are applied the claim is
re-signed with the resolved key and `issuer` and `issuerAccount` are re-derived;
`edited` is the claim as the operations left it. -/
def signEdited (edited : UserClaims) (account : AccountClaims) (signer : KeyPair) :
    UserClaims :=
  { edited with
    Issuer := (issuerFields signer.PublicKey account.Subject).1,
    IssuerAccount := (issuerFields signer.PublicKey account.Subject).2 }

/-- Modelled from the spec: the "lowercase" step of the tag operations, whose
code is missing; the ASCII letters are lowered, character by character. -/
def lowercase (t : String) : String :=
  ⟨t.data.map Char.toLower⟩

/-- Modelled from the spec: the "split on comma" step of the tag operations,
whose code is missing, on the characters of the text. -/
def splitComma : List Char → List (List Char)
  | [] => [[]]
  | c :: cs =>
    match splitComma cs with
    | [] => [[]]
    | m :: ms => if c = ',' then [] :: m :: ms else (c :: m) :: ms

/-- Modelled from the spec: the members of a comma-separated list of values,
whose parsing code is missing. -/
def members (values : String) : List String :=
  (splitComma values.data).map String.mk

/-- Modelled from the spec: the union of one value into the tag set, whose
code is missing; a value already present is not added again. -/
def unionTag (tags : List String) (v : String) : List String :=
  if v ∈ tags then tags else tags ++ [v]

/-- Modelled from the spec: add-tag(values), whose code (the `edit user`
command) is missing: "lowercase, split on comma, union into `tags`". -/
def addTag (claim : UserClaims) (values : String) : UserClaims :=
  { claim with Tags := (members (lowercase values)).foldl unionTag claim.Tags }

/-- Modelled from the spec: remove-tag(values), whose code (the `edit user`
command) is missing: "lowercase, set-difference from `tags`". -/
def removeTag (claim : UserClaims) (values : String) : UserClaims :=
  { claim with Tags := claim.Tags.filter (fun t => t ∉ members (lowercase values)) }

/-! ## Sample inputs -/

/-- A world with one operator store `O` whose operator claim is at the given
version, and a key store reporting `needsUpdate`. -/
def sampleWorld (version : Int) (needsUpdate : Bool) : World where
  args0 := "nsc"
  IsValidDir := fun _ => none
  SetDefaults := fun c => c
  Join := fun a b => a ++ "/" ++ b
  LoadStore := fun _ =>
    .ok { Name := "O", DefaultAccount := "", OperatorClaim := some { Version := version } }
  KeysNeedMigration := (needsUpdate, none)
  GetKeysDir := "~/.nkeys"
  AbbrevHomePaths := fun p => p
  addCmdCommands := [11, 12, 13]
  ResolveKey := fun ref =>
    if ref = "SAASEED" then (some { PublicKey := "ASIGNER", Seed := "SAASEED" }, none)
    else (none, some "unable to resolve any key")
  fmtQ := fun t => "\"" ++ t ++ "\""
  fmtSharpQ := fun t => "\"" ++ t ++ "\""

/-- A world like `sampleWorld 2 false` in which `SetDefaults` fills in the only
operator there is, `O`. -/
def defaultsWorld : World :=
  { sampleWorld 2 false with SetDefaults := fun c => { c with Operator := "O" } }

/-- A world with the version 1 store `O` in which inspecting the key store
fails. -/
def brokenKeysWorld : World :=
  { sampleWorld 1 false with KeysNeedMigration := (false, some "cannot read the keys directory") }

/-- A configuration naming the store root and no operator. -/
def noOperatorConfig : ToolConfig :=
  { StoreRoot := "/stores", Operator := "", Account := "" }

/-- A configuration naming the store root and the operator `O`. -/
def sampleConfig : ToolConfig :=
  { StoreRoot := "/stores", Operator := "O", Account := "" }

/-- The store `sampleWorld version _` loads. -/
def sampleStore (version : Int) : Store :=
  { Name := "O", DefaultAccount := "", OperatorClaim := some { Version := version } }

/-- The command `nsc edit user`. -/
def editUserCmd : Command :=
  { addr := 21, Name := "user", Parent := some "edit", SilenceUsage := false }

/-- The command `nsc add operator`, a child of `addCmd`. -/
def addOperatorCmd : Command :=
  { addr := 12, Name := "operator", Parent := some "add", SilenceUsage := false }

/-- The command `nsc edit operator`. -/
def editOperatorCmd : Command :=
  { addr := 22, Name := "operator", Parent := some "edit", SilenceUsage := false }

/-- The command `nsc env`. -/
def envCmd : Command :=
  { addr := 31, Name := "env", Parent := some "nsc", SilenceUsage := false }

/-- The account `A` with one signing key. -/
def sampleAccount : AccountClaims :=
  { Subject := "AACCOUNT", SigningKeys := ["ASIGNER"] }

/-- The key pair of the account `A` itself. -/
def accountKey : KeyPair :=
  { PublicKey := "AACCOUNT", Seed := "SAACCOUNTSEED" }

/-- The key pair of the signing key of the account `A`. -/
def signingKey : KeyPair :=
  { PublicKey := "ASIGNER", Seed := "SAASEED" }

/-- A user claim signed by the account key, with no tags. -/
def userByAccount : UserClaims :=
  { Subject := "UUSER", Issuer := "AACCOUNT", IssuerAccount := "", Tags := [] }

/-- A user claim signed by the signing key of the account, with no tags. -/
def userBySigningKey : UserClaims :=
  { Subject := "UUSER", Issuer := "ASIGNER", IssuerAccount := "AACCOUNT", Tags := [] }

/-- The command `nsc keys migrate`. -/
def keysMigrateCmd : Command :=
  { addr := 41, Name := "migrate", Parent := some "keys", SilenceUsage := false }

/-- A command named `migrate` registered under a parent named `tools`. -/
def toolsMigrateCmd : Command :=
  { addr := 42, Name := "migrate", Parent := some "tools", SilenceUsage := false }

/-- A world with the version 2 store `O` in which the key store reports that it
needs migration and inspecting it fails as well. -/
def failingKeysWorld : World :=
  { sampleWorld 2 false with KeysNeedMigration := (true, some "cannot read the keys directory") }

/-- A world whose store `O` loads but yields no operator claim. -/
def noClaimWorld (needsUpdate : Bool) : World :=
  { sampleWorld 2 needsUpdate with
    LoadStore := fun _ => .ok { Name := "O", DefaultAccount := "", OperatorClaim := none } }

/-- A configuration without a store root, for which `GetStore` fails. -/
def noStoreConfig : ToolConfig :=
  { StoreRoot := "", Operator := "", Account := "" }

/-! ## The store-version check -/

theorem storeVersionCheck_v1 (w : World) (store : Store) (c : OperatorClaims) (cmd : Command)
    (hclaim : store.OperatorClaim = some c) (hv : c.Version = 1) :
    storeVersionCheck w (some store) cmd =
      if allowCmdWithJWTV1Store w cmd then none
      else some (.jwtV1Store w.args0 store.Name) := by
  simp only [storeVersionCheck, hclaim, hv]
  cases allowCmdWithJWTV1Store w cmd <;> simp

theorem storeVersionCheck_other (w : World) (store : Store) (c : OperatorClaims) (cmd : Command)
    (hclaim : store.OperatorClaim = some c) (hv : c.Version ≠ 1) :
    storeVersionCheck w (some store) cmd = none := by
  simp [storeVersionCheck, hclaim, hv]

/-- The branch of line 117 is dead: the store-version check never returns the
"upgrade nsc" error. -/
theorem storeVersionCheck_never_tooNew (w : World) (got : Option Store) (cmd : Command)
    (n : String) (v : Int) (p : String) :
    storeVersionCheck w got cmd ≠ some (.storeTooNew n v p) := by
  unfold storeVersionCheck
  intro h
  split at h
  · simp at h
  · split at h
    · simp at h
    · split_ifs at h <;> simp_all

theorem isKeysMigrate_of_dispatched (cmd : Command) (hdisp : cmd.dispatched)
    (hcmd : ¬ (cmd.Name = "migrate" ∧ cmd.Parent = some "keys")) :
    isKeysMigrate cmd = some false := by
  unfold isKeysMigrate
  by_cases hn : cmd.Name = "migrate"
  · cases hp : cmd.Parent with
    | none =>
      have := hdisp hp
      rw [hn] at this
      exact absurd this (by decide)
    | some p =>
      have hne : p ≠ "keys" := fun h => hcmd ⟨hn, by rw [hp, h]⟩
      simp [hn, hne]
  · simp [hn]

theorem allowCmd_of_not_operator (w : World) (cmd : Command) (hname : cmd.Name ≠ "operator") :
    allowCmdWithJWTV1Store w cmd = true ↔
      cmd.Name ∈ ["upgrade-jwt", "env", "help", "update"] := by
  simp [allowCmdWithJWTV1Store, hname, or_assoc]

theorem allowCmd_of_operator (w : World) (cmd : Command) (hname : cmd.Name = "operator") :
    allowCmdWithJWTV1Store w cmd = true ↔ cmd.addr ∈ w.addCmdCommands := by
  unfold allowCmdWithJWTV1Store
  rw [hname]
  simp

theorem jwtV1_text_names_upgrade (w : World) (storeName : String) :
    containsText ((GateError.jwtV1Store w.args0 storeName).Error w)
      ("\"" ++ w.args0 ++ " upgrade-jwt\"") := by
  refine ⟨"This version of nsc only supports jwtV2. \n"
      ++ "If you are using a managed service, check your provider for \n"
      ++ "instructions on how to update your project. In most cases \n"
      ++ "all you need to do is:\n"
      ++ "\"" ++ w.args0 ++ " add operator --force -u <url provided by your service>\"\n"
      ++ "\n"
      ++ "If your service is well known, such as Synadia's NGS:\n"
      ++ "\"" ++ w.args0 ++ " add operator --force -u synadia\"\n"
      ++ "\n"
      ++ "If you are the operator, and you have your operator key, to \n"
      ++ "upgrade the v1 store " ++ w.fmtSharpQ storeName ++ " - type:\n",
    "\n"
      ++ "\n"
      ++ "Alternatively you can downgrade' " ++ w.fmtQ w.args0
      ++ " to a compatible version using: \n"
      ++ "\"" ++ w.args0 ++ " update --version 0.5.0\"\n", ?_⟩
  have hcut : (" upgrade-jwt\"\n" : String) = " upgrade-jwt\"" ++ "\n" := by decide
  show _ ++ _ = _
  rw [hcut]
  simp only [String.append_assoc]

theorem isKeysMigrate_some_of_dispatched (cmd : Command) (hdisp : cmd.dispatched) :
    ∃ b, isKeysMigrate cmd = some b := by
  unfold isKeysMigrate
  by_cases hn : cmd.Name = "migrate"
  · cases hp : cmd.Parent with
    | none =>
      have := hdisp hp
      rw [hn] at this
      exact absurd this (by decide)
    | some p => exact ⟨p == "keys", by simp [hn]⟩
  · exact ⟨false, by simp [hn]⟩

/-! ## The gate -/

theorem gate_of_blocked (w : World) (s : State) (e : GateError)
    (h : storeVersionCheck w (GetStore w s.config).1.1 s.cmd = some e) :
    PersistentPreRunE w s = (.error e, { s with config := (GetStore w s.config).2 }) := by
  simp only [PersistentPreRunE, h]

theorem gate_of_passed (w : World) (s : State)
    (h : storeVersionCheck w (GetStore w s.config).1.1 s.cmd = none) :
    PersistentPreRunE w s = keystoreCheck w { s with config := (GetStore w s.config).2 } := by
  simp only [PersistentPreRunE, h]

theorem keystoreCheck_of_failed (w : World) (s : State) (b : Bool) (err : GoError)
    (hm : isKeysMigrate s.cmd = some false) (hk : w.KeysNeedMigration = (b, some err)) :
    keystoreCheck w s = (.error (.keysInspection err), s) := by
  simp only [keystoreCheck, hm, hk]

theorem keystoreCheck_of_needed (w : World) (s : State)
    (hm : isKeysMigrate s.cmd = some false) (hk : w.KeysNeedMigration = (true, none)) :
    keystoreCheck w s =
      (.error (.keystoreNeedsMigration (w.AbbrevHomePaths w.GetKeysDir) w.args0),
        { s with cmd := { s.cmd with SilenceUsage := true } }) := by
  simp [keystoreCheck, hm, hk]

theorem keystoreCheck_of_clean (w : World) (s : State)
    (hm : isKeysMigrate s.cmd = some false) (hk : w.KeysNeedMigration = (false, none)) :
    keystoreCheck w s = (.ok, s) := by
  simp [keystoreCheck, hm, hk]

theorem keystoreCheck_of_exempt (w : World) (s : State)
    (hm : isKeysMigrate s.cmd = some true) :
    keystoreCheck w s = (.ok, s) := by
  simp only [keystoreCheck, hm]

theorem keystoreCheck_of_nil (w : World) (s : State)
    (hm : isKeysMigrate s.cmd = none) :
    keystoreCheck w s = (.nilDeref, s) := by
  simp only [keystoreCheck, hm]

/-- The key-store check on a command that is not `keys migrate`, when the key
store reports that it needs migration, ends in an error of the key-store check. -/
theorem keystoreCheck_blocks (w : World) (s : State)
    (hm : isKeysMigrate s.cmd = some false) (hneeds : w.KeysNeedMigration.1 = true) :
    ∃ e, (keystoreCheck w s).1 = .error e ∧ e.fromKeystore = true := by
  rcases hk : w.KeysNeedMigration with ⟨b, oerr⟩
  rw [hk] at hneeds
  simp only at hneeds
  subst hneeds
  cases oerr with
  | none =>
    exact ⟨.keystoreNeedsMigration (w.AbbrevHomePaths w.GetKeysDir) w.args0,
      by rw [keystoreCheck_of_needed w s hm hk], rfl⟩
  | some err =>
    exact ⟨.keysInspection err, by rw [keystoreCheck_of_failed w s true err hm hk], rfl⟩

/-- An error of the key-store check is never returned by the store-version check. -/
theorem storeVersionCheck_not_fromKeystore (w : World) (got : Option Store) (cmd : Command)
    (e : GateError) (h : storeVersionCheck w got cmd = some e) : e.fromKeystore = false := by
  unfold storeVersionCheck at h
  split at h
  · simp at h
  · split at h
    · simp at h
    · split_ifs at h <;> simp at h <;> subst h <;> rfl

/-! ## Claims about the gate -/

/-- C1, at the failing input: the store `O` is loaded, its operator claim is at
version 3 and the key store needs no migration, yet the gate returns nil for
`nsc edit user` and leaves the state as it was; the "upgrade nsc" error of
line 118 is not returned. -/
theorem gate_admits_version3_store :
    (GetStore (sampleWorld 3 false) sampleConfig).1.1 = some (sampleStore 3) ∧
    (sampleStore 3).OperatorClaim = some { Version := 3 } ∧
    PersistentPreRunE (sampleWorld 3 false) { config := sampleConfig, cmd := editUserCmd } =
      (.ok, { config := sampleConfig, cmd := editUserCmd }) := by
  decide

/-- C2: against a store whose operator claim is at version 1, for a command
whose name is not `operator`, the store-version check passes exactly when the
name is one of `upgrade-jwt`, `env`, `help`, `update`; for every other name the
gate returns the version 1 error, whose text contains `"<prog> upgrade-jwt"`. -/
theorem v1_store_allow_list (w : World) (s : State) (store : Store) (c : OperatorClaims)
    (hstore : (GetStore w s.config).1.1 = some store)
    (hclaim : store.OperatorClaim = some c) (hv : c.Version = 1)
    (hname : s.cmd.Name ≠ "operator") :
    (storeVersionCheck w (some store) s.cmd = none ↔
      s.cmd.Name ∈ ["upgrade-jwt", "env", "help", "update"]) ∧
    (s.cmd.Name ∉ ["upgrade-jwt", "env", "help", "update"] →
      (PersistentPreRunE w s).1 = .error (.jwtV1Store w.args0 store.Name) ∧
      containsText ((GateError.jwtV1Store w.args0 store.Name).Error w)
        ("\"" ++ w.args0 ++ " upgrade-jwt\"")) := by
  have hallow := allowCmd_of_not_operator w s.cmd hname
  have hcheck := storeVersionCheck_v1 w store c s.cmd hclaim hv
  constructor
  · rw [hcheck, ← hallow]
    cases allowCmdWithJWTV1Store w s.cmd <;> simp
  · intro hnot
    have hfalse : allowCmdWithJWTV1Store w s.cmd = false := by
      cases h : allowCmdWithJWTV1Store w s.cmd
      · rfl
      · exact absurd (hallow.mp h) hnot
    rw [hfalse] at hcheck
    refine ⟨?_, jwtV1_text_names_upgrade w store.Name⟩
    rw [gate_of_blocked w s _ (by rw [hstore]; exact hcheck)]

/-- C2 at a concrete input: `nsc edit user` against the version 1 store `O`. -/
theorem v1_store_allow_list_witness :
    (storeVersionCheck (sampleWorld 1 false) (some (sampleStore 1)) editUserCmd = none ↔
      editUserCmd.Name ∈ ["upgrade-jwt", "env", "help", "update"]) ∧
    (editUserCmd.Name ∉ ["upgrade-jwt", "env", "help", "update"] →
      (PersistentPreRunE (sampleWorld 1 false)
        { config := sampleConfig, cmd := editUserCmd }).1 = .error (.jwtV1Store "nsc" "O") ∧
      containsText ((GateError.jwtV1Store "nsc" "O").Error (sampleWorld 1 false))
        ("\"" ++ "nsc" ++ " upgrade-jwt\"")) :=
  v1_store_allow_list (sampleWorld 1 false) { config := sampleConfig, cmd := editUserCmd }
    (sampleStore 1) { Version := 1 } (by decide) (by decide) (by decide) (by decide)

/-- C3: when `KeysNeedMigration` reports true, the gate returns an error for
every dispatched command other than `keys migrate`, whatever the store is; when
the store-version check lets the command pass, as it does for every store at
version 2, the error is one of the key-store check. -/
theorem keystore_migration_blocks (w : World) (s : State)
    (hneeds : w.KeysNeedMigration.1 = true)
    (hdisp : s.cmd.dispatched)
    (hcmd : ¬ (s.cmd.Name = "migrate" ∧ s.cmd.Parent = some "keys")) :
    (∃ e, (PersistentPreRunE w s).1 = .error e) ∧
    (∀ store c, (GetStore w s.config).1.1 = some store → store.OperatorClaim = some c →
      c.Version = 2 → ∃ e, (PersistentPreRunE w s).1 = .error e ∧ e.fromKeystore = true) := by
  have hm := isKeysMigrate_of_dispatched s.cmd hdisp hcmd
  constructor
  · cases hcheck : storeVersionCheck w (GetStore w s.config).1.1 s.cmd with
    | some e => exact ⟨e, by rw [gate_of_blocked w s e hcheck]⟩
    | none =>
      rw [gate_of_passed w s hcheck]
      obtain ⟨e, he, _⟩ := keystoreCheck_blocks w { s with config := (GetStore w s.config).2 }
        hm hneeds
      exact ⟨e, he⟩
  · intro store c hstore hclaim hv
    have hcheck : storeVersionCheck w (GetStore w s.config).1.1 s.cmd = none := by
      rw [hstore]
      exact storeVersionCheck_other w store c s.cmd hclaim (by rw [hv]; decide)
    rw [gate_of_passed w s hcheck]
    exact keystoreCheck_blocks w { s with config := (GetStore w s.config).2 } hm hneeds

/-- C3 at a concrete input: `nsc edit user` against the version 2 store `O`
with a key store that needs migration. -/
theorem keystore_migration_blocks_witness :
    (∃ e, (PersistentPreRunE (sampleWorld 2 true)
      { config := sampleConfig, cmd := editUserCmd }).1 = .error e) ∧
    (∀ store c, (GetStore (sampleWorld 2 true) sampleConfig).1.1 = some store →
      store.OperatorClaim = some c → c.Version = 2 →
      ∃ e, (PersistentPreRunE (sampleWorld 2 true)
        { config := sampleConfig, cmd := editUserCmd }).1 = .error e ∧ e.fromKeystore = true) :=
  keystore_migration_blocks (sampleWorld 2 true) { config := sampleConfig, cmd := editUserCmd }
    (by decide) (by decide) (by decide)

/-- C4: against a store whose operator claim is at version 2, with a key store
that needs no migration, the gate returns nil for every dispatched command. -/
theorem v2_store_runs_freely (w : World) (s : State) (store : Store) (c : OperatorClaims)
    (hstore : (GetStore w s.config).1.1 = some store)
    (hclaim : store.OperatorClaim = some c) (hv : c.Version = 2)
    (hkeys : w.KeysNeedMigration = (false, none))
    (hdisp : s.cmd.dispatched) :
    (PersistentPreRunE w s).1 = .ok := by
  have hcheck : storeVersionCheck w (GetStore w s.config).1.1 s.cmd = none := by
    rw [hstore]
    exact storeVersionCheck_other w store c s.cmd hclaim (by rw [hv]; decide)
  rw [gate_of_passed w s hcheck]
  obtain ⟨b, hb⟩ := isKeysMigrate_some_of_dispatched s.cmd hdisp
  cases b with
  | true => rw [keystoreCheck_of_exempt w { s with config := (GetStore w s.config).2 } hb]
  | false => rw [keystoreCheck_of_clean w { s with config := (GetStore w s.config).2 } hb hkeys]

/-- C4 at a concrete input: `nsc edit user`, which the version 1 store `O`
blocks, runs against the version 2 store `O`. -/
theorem v2_store_runs_freely_witness :
    (PersistentPreRunE (sampleWorld 1 false)
      { config := sampleConfig, cmd := editUserCmd }).1 = .error (.jwtV1Store "nsc" "O") ∧
    (PersistentPreRunE (sampleWorld 2 false)
      { config := sampleConfig, cmd := editUserCmd }).1 = .ok :=
  ⟨by decide,
    v2_store_runs_freely (sampleWorld 2 false) { config := sampleConfig, cmd := editUserCmd }
      (sampleStore 2) { Version := 2 } (by decide) (by decide) (by decide) (by decide)
      (by decide)⟩

/-- C5, refuted as stated: `nsc edit operator` is named `operator` but is not
among the children of `addCmd`, and against the version 1 store `O` the
store-version check returns the version 1 error for it. -/
theorem edit_operator_blocked_at_v1 :
    editOperatorCmd.Name = "operator" ∧
    (sampleStore 1).OperatorClaim = some { Version := 1 } ∧
    storeVersionCheck (sampleWorld 1 false) (some (sampleStore 1)) editOperatorCmd =
      some (.jwtV1Store "nsc" "O") ∧
    (PersistentPreRunE (sampleWorld 1 false)
      { config := sampleConfig, cmd := editOperatorCmd }).1 = .error (.jwtV1Store "nsc" "O") := by
  decide

/-- C5, amended: against a store whose operator claim is at version 1, a command
named `operator` passes the store-version check exactly when it is one of the
children of `addCmd` (that is, `add operator`); every other command named
`operator` gets the version 1 error. -/
theorem v1_store_operator_commands (w : World) (store : Store) (c : OperatorClaims)
    (cmd : Command) (hclaim : store.OperatorClaim = some c) (hv : c.Version = 1)
    (hname : cmd.Name = "operator") :
    (storeVersionCheck w (some store) cmd = none ↔ cmd.addr ∈ w.addCmdCommands) ∧
    (cmd.addr ∉ w.addCmdCommands →
      storeVersionCheck w (some store) cmd = some (.jwtV1Store w.args0 store.Name)) := by
  have hallow := allowCmd_of_operator w cmd hname
  have hcheck := storeVersionCheck_v1 w store c cmd hclaim hv
  constructor
  · rw [hcheck, ← hallow]
    cases allowCmdWithJWTV1Store w cmd <;> simp
  · intro hnot
    have hfalse : allowCmdWithJWTV1Store w cmd = false := by
      cases h : allowCmdWithJWTV1Store w cmd
      · rfl
      · exact absurd (hallow.mp h) hnot
    rw [hcheck, hfalse]
    rfl

/-- C5, amended, at concrete inputs: `nsc add operator` passes and
`nsc edit operator` is blocked against the version 1 store `O`. -/
theorem v1_store_operator_commands_witness :
    storeVersionCheck (sampleWorld 1 false) (some (sampleStore 1)) addOperatorCmd = none ∧
    storeVersionCheck (sampleWorld 1 false) (some (sampleStore 1)) editOperatorCmd =
      some (.jwtV1Store "nsc" "O") :=
  ⟨(v1_store_operator_commands (sampleWorld 1 false) (sampleStore 1) { Version := 1 }
      addOperatorCmd (by decide) (by decide) (by decide)).1.mpr (by decide),
   (v1_store_operator_commands (sampleWorld 1 false) (sampleStore 1) { Version := 1 }
      editOperatorCmd (by decide) (by decide) (by decide)).2 (by decide)⟩

/-- C6: the store-version check decides first. Against a store at version 1, a
command the version 1 rule does not allow gets the version 1 error, which is
not an error of the key-store check, whatever `KeysNeedMigration` would
return; and whenever the gate returns an error of the key-store check, the
store-version check had passed. -/
theorem store_version_error_first (w : World) (s : State) :
    (∀ store c, (GetStore w s.config).1.1 = some store → store.OperatorClaim = some c →
      c.Version = 1 → allowCmdWithJWTV1Store w s.cmd = false →
      (PersistentPreRunE w s).1 = .error (.jwtV1Store w.args0 store.Name) ∧
      (GateError.jwtV1Store w.args0 store.Name).fromKeystore = false) ∧
    (∀ e, (PersistentPreRunE w s).1 = .error e → e.fromKeystore = true →
      storeVersionCheck w (GetStore w s.config).1.1 s.cmd = none) := by
  constructor
  · intro store c hstore hclaim hv hallow
    have hcheck := storeVersionCheck_v1 w store c s.cmd hclaim hv
    rw [hallow] at hcheck
    refine ⟨?_, rfl⟩
    rw [gate_of_blocked w s _ (by rw [hstore]; exact hcheck)]
  · intro e he hfrom
    cases hcheck : storeVersionCheck w (GetStore w s.config).1.1 s.cmd with
    | none => rfl
    | some e' =>
      rw [gate_of_blocked w s e' hcheck] at he
      have hee : e' = e := by simpa using he
      have := storeVersionCheck_not_fromKeystore w _ _ e' hcheck
      rw [hee, hfrom] at this
      exact absurd this (by decide)

/-- C6 at concrete inputs: with a key store that needs migration, and with one
whose inspection fails, `nsc edit user` gets the version 1 error against the
version 1 store `O`; against the version 2 store `O` it gets the key-store
error, and there the store-version check had passed. -/
theorem store_version_error_first_witness :
    ((PersistentPreRunE (sampleWorld 1 true)
        { config := sampleConfig, cmd := editUserCmd }).1 = .error (.jwtV1Store "nsc" "O") ∧
      (GateError.jwtV1Store "nsc" "O").fromKeystore = false) ∧
    ((PersistentPreRunE brokenKeysWorld
        { config := sampleConfig, cmd := editUserCmd }).1 = .error (.jwtV1Store "nsc" "O") ∧
      (GateError.jwtV1Store "nsc" "O").fromKeystore = false) ∧
    storeVersionCheck (sampleWorld 2 true) (GetStore (sampleWorld 2 true) sampleConfig).1.1
      editUserCmd = none :=
  ⟨(store_version_error_first (sampleWorld 1 true)
      { config := sampleConfig, cmd := editUserCmd }).1 (sampleStore 1) { Version := 1 }
      (by decide) (by decide) (by decide) (by decide),
   (store_version_error_first brokenKeysWorld
      { config := sampleConfig, cmd := editUserCmd }).1 (sampleStore 1) { Version := 1 }
      (by decide) (by decide) (by decide) (by decide),
   (store_version_error_first (sampleWorld 2 true)
      { config := sampleConfig, cmd := editUserCmd }).2
      (.keystoreNeedsMigration "~/.nkeys" "nsc") (by decide) (by decide)⟩

/-! ## The state the gate leaves -/

/-- The function `GetStore` leaves the configuration as it was, unless no operator is
configured, when it may leave it as `SetDefaults` made it. -/
theorem GetStore_config (w : World) (config : ToolConfig) :
    (GetStore w config).2 = config ∨
      (config.Operator = "" ∧ (GetStore w config).2 = w.SetDefaults config) := by
  unfold GetStore GetStoreForOperator
  by_cases hroot : config.StoreRoot = ""
  · simp [hroot]
  · cases hdir : w.IsValidDir config.StoreRoot with
    | some err => simp [hroot]
    | none =>
      by_cases hop : config.Operator = ""
      · right
        refine ⟨hop, ?_⟩
        simp only [hroot, hop, if_false, if_true, ne_eq, not_true_eq_false]
        split_ifs
        all_goals first | rfl | (split <;> rfl)
      · left
        simp only [hroot, hop, if_false, ne_eq, not_true_eq_false]
        split_ifs
        all_goals first | rfl | (split <;> rfl)

theorem keystoreCheck_config (w : World) (s : State) :
    (keystoreCheck w s).2.config = s.config := by
  unfold keystoreCheck
  split
  · rfl
  · rfl
  · split
    · rfl
    · split_ifs <;> rfl

theorem keystoreCheck_cmd (w : World) (s : State) :
    ((keystoreCheck w s).1 =
        .error (.keystoreNeedsMigration (w.AbbrevHomePaths w.GetKeysDir) w.args0) →
      (keystoreCheck w s).2.cmd = { s.cmd with SilenceUsage := true }) ∧
    ((keystoreCheck w s).1 ≠
        .error (.keystoreNeedsMigration (w.AbbrevHomePaths w.GetKeysDir) w.args0) →
      (keystoreCheck w s).2.cmd = s.cmd) := by
  unfold keystoreCheck
  split
  · simp
  · simp
  · split
    · simp
    · split_ifs <;> simp

/-- C7, refuted as stated: run for `nsc edit user` against the version 2 store
`O` with a key store that needs migration, the gate returns the key-store
error and leaves the command with `SilenceUsage` set, which it was not
before. And run with no operator configured, where `SetDefaults` fills in the
operator `O`, the gate returns nil and leaves the configuration naming `O`. -/
theorem gate_sets_silence_usage :
    editUserCmd.SilenceUsage = false ∧
    (PersistentPreRunE (sampleWorld 2 true) { config := sampleConfig, cmd := editUserCmd }).1 =
      .error (.keystoreNeedsMigration "~/.nkeys" "nsc") ∧
    (PersistentPreRunE (sampleWorld 2 true)
      { config := sampleConfig, cmd := editUserCmd }).2.cmd.SilenceUsage = true ∧
    (PersistentPreRunE (sampleWorld 2 true) { config := sampleConfig, cmd := editUserCmd }).2 ≠
      { config := sampleConfig, cmd := editUserCmd } ∧
    PersistentPreRunE defaultsWorld { config := noOperatorConfig, cmd := editUserCmd } =
      (.ok, { config := sampleConfig, cmd := editUserCmd }) ∧
    noOperatorConfig ≠ sampleConfig := by
  decide

/-- C7, amended: the gate changes the state in two places only. The command is
left as it was, except that its `SilenceUsage` flag is set when the gate
returns the needs-migration error of the key store. The tool configuration is
left as it was, except that `GetStoreForOperator` may leave it as `SetDefaults`
made it when no operator was configured. For a dispatched command the gate
ends in nil or in an error. -/
theorem gate_effects (w : World) (s : State) :
    ((PersistentPreRunE w s).2.config = s.config ∨
      (s.config.Operator = "" ∧ (PersistentPreRunE w s).2.config = w.SetDefaults s.config)) ∧
    ((PersistentPreRunE w s).1 =
        .error (.keystoreNeedsMigration (w.AbbrevHomePaths w.GetKeysDir) w.args0) →
      (PersistentPreRunE w s).2.cmd = { s.cmd with SilenceUsage := true }) ∧
    ((PersistentPreRunE w s).1 ≠
        .error (.keystoreNeedsMigration (w.AbbrevHomePaths w.GetKeysDir) w.args0) →
      (PersistentPreRunE w s).2.cmd = s.cmd) ∧
    (s.cmd.dispatched →
      (PersistentPreRunE w s).1 = .ok ∨ ∃ e, (PersistentPreRunE w s).1 = .error e) := by
  cases hcheck : storeVersionCheck w (GetStore w s.config).1.1 s.cmd with
  | some e =>
    rw [gate_of_blocked w s e hcheck]
    have hfrom := storeVersionCheck_not_fromKeystore w _ _ e hcheck
    refine ⟨GetStore_config w s.config, ?_, fun _ => rfl, fun _ => Or.inr ⟨e, rfl⟩⟩
    intro he
    have hee : e = .keystoreNeedsMigration (w.AbbrevHomePaths w.GetKeysDir) w.args0 := by
      simpa using he
    rw [hee] at hfrom
    simp [GateError.fromKeystore] at hfrom
  | none =>
    rw [gate_of_passed w s hcheck]
    have hcmd := keystoreCheck_cmd w { s with config := (GetStore w s.config).2 }
    refine ⟨?_, hcmd.1, hcmd.2, ?_⟩
    · rw [keystoreCheck_config]
      exact GetStore_config w s.config
    · intro hdisp
      obtain ⟨b, hb⟩ := isKeysMigrate_some_of_dispatched s.cmd hdisp
      cases b with
      | true =>
        rw [keystoreCheck_of_exempt w { s with config := (GetStore w s.config).2 } hb]
        exact Or.inl rfl
      | false =>
        rcases hk : w.KeysNeedMigration with ⟨needs, _ | err⟩
        · cases needs with
          | true =>
            rw [keystoreCheck_of_needed w { s with config := (GetStore w s.config).2 } hb hk]
            exact Or.inr ⟨_, rfl⟩
          | false =>
            rw [keystoreCheck_of_clean w { s with config := (GetStore w s.config).2 } hb hk]
            exact Or.inl rfl
        · rw [keystoreCheck_of_failed w { s with config := (GetStore w s.config).2 } needs err
            hb hk]
          exact Or.inr ⟨_, rfl⟩

/-- C7, amended, at concrete inputs: for `nsc edit user` against the version 2
store `O`, the command comes back with `SilenceUsage` set when the key store
needs migration, and unchanged when it does not. -/
theorem gate_effects_witness :
    (PersistentPreRunE (sampleWorld 2 true) { config := sampleConfig, cmd := editUserCmd }).2.cmd =
      { editUserCmd with SilenceUsage := true } ∧
    (PersistentPreRunE (sampleWorld 2 false) { config := sampleConfig, cmd := editUserCmd }).2.cmd =
      editUserCmd ∧
    ((PersistentPreRunE (sampleWorld 2 false) { config := sampleConfig, cmd := editUserCmd }).1 =
        .ok ∨
      ∃ e, (PersistentPreRunE (sampleWorld 2 false)
        { config := sampleConfig, cmd := editUserCmd }).1 = .error e) :=
  ⟨(gate_effects (sampleWorld 2 true) { config := sampleConfig, cmd := editUserCmd }).2.1
      (by decide),
   (gate_effects (sampleWorld 2 false) { config := sampleConfig, cmd := editUserCmd }).2.2.1
      (by decide),
   (gate_effects (sampleWorld 2 false) { config := sampleConfig, cmd := editUserCmd }).2.2.2
      (by decide)⟩

/-! ## Signing an edited user claim -/

/-- C8: after an edit is signed, if the signing key has the account's own
public identity the claim has `issuer` = account subject and an empty
`issuerAccount`; otherwise it has `issuer` = the signing key's public identity
and `issuerAccount` = account subject. The fields the claim had before (signed
by the account key or by a signing key) play no part, and the subject and the
tags are kept. -/
theorem edit_stamps_issuer (edited : UserClaims) (account : AccountClaims) (signer : KeyPair) :
    (signer.PublicKey = account.Subject →
      (signEdited edited account signer).Issuer = account.Subject ∧
      (signEdited edited account signer).IssuerAccount = "") ∧
    (signer.PublicKey ≠ account.Subject →
      (signEdited edited account signer).Issuer = signer.PublicKey ∧
      (signEdited edited account signer).IssuerAccount = account.Subject) ∧
    (signEdited edited account signer).Subject = edited.Subject ∧
    (signEdited edited account signer).Tags = edited.Tags := by
  refine ⟨fun h => ?_, fun h => ?_, rfl, rfl⟩
  · simp [signEdited, issuerFields, h]
  · simp [signEdited, issuerFields, h]

/-- C8 at the inputs of `Test_EditUserSK`, `Test_EditUserAddedWithSK` and of an
edit signed by the account key: a user signed by the account key, or by the
signing key, and edited with the signing key has `issuer` = signing key and
`issuerAccount` = account; edited with the account key it has `issuer` =
account and no `issuerAccount`. -/
theorem edit_stamps_issuer_witness :
    ((signEdited userByAccount sampleAccount signingKey).Issuer = "ASIGNER" ∧
      (signEdited userByAccount sampleAccount signingKey).IssuerAccount = "AACCOUNT") ∧
    ((signEdited userBySigningKey sampleAccount signingKey).Issuer = "ASIGNER" ∧
      (signEdited userBySigningKey sampleAccount signingKey).IssuerAccount = "AACCOUNT") ∧
    ((signEdited userBySigningKey sampleAccount accountKey).Issuer = "AACCOUNT" ∧
      (signEdited userBySigningKey sampleAccount accountKey).IssuerAccount = "") :=
  ⟨(edit_stamps_issuer userByAccount sampleAccount signingKey).2.1 (by decide),
   (edit_stamps_issuer userBySigningKey sampleAccount signingKey).2.1 (by decide),
   (edit_stamps_issuer userBySigningKey sampleAccount accountKey).1 (by decide)⟩

/-! ## Tags -/

theorem toLower_eq_comma (c : Char) : c.toLower = ',' ↔ c = ',' := by
  constructor
  · intro h
    unfold Char.toLower at h
    simp only at h
    split_ifs at h with hc
    · exfalso
      obtain ⟨h1, h2⟩ := hc
      have hrange : ∀ n, 65 ≤ n → n ≤ 90 → Char.ofNat (n + 32) ≠ ',' := by
        intro n a b
        interval_cases n <;> decide
      exact hrange _ h1 h2 h
    · exact h
  · intro h
    subst h
    decide

theorem splitComma_ne_nil (cs : List Char) : splitComma cs ≠ [] := by
  cases cs with
  | nil => simp [splitComma]
  | cons c cs =>
    unfold splitComma
    split
    · simp
    · split_ifs <;> simp

/-- Lowering the characters first and splitting afterwards gives the members
lowered one by one. -/
theorem splitComma_map_toLower (cs : List Char) :
    splitComma (cs.map Char.toLower) = (splitComma cs).map (List.map Char.toLower) := by
  induction cs with
  | nil => rfl
  | cons c cs ih =>
    simp only [List.map_cons, splitComma]
    rw [ih]
    cases hsplit : splitComma cs with
    | nil => exact absurd hsplit (splitComma_ne_nil cs)
    | cons m ms =>
      simp only [List.map_cons, toLower_eq_comma]
      split_ifs <;> simp

theorem members_lowercase (values : String) :
    members (lowercase values) = (members values).map lowercase := by
  simp only [members, lowercase, splitComma_map_toLower, List.map_map]
  rfl

theorem mem_foldl_unionTag (vs tags : List String) (t : String) :
    t ∈ vs.foldl unionTag tags ↔ t ∈ tags ∨ t ∈ vs := by
  induction vs generalizing tags with
  | nil => simp
  | cons v vs ih =>
    rw [List.foldl_cons, ih]
    unfold unionTag
    split_ifs with hv
    · constructor
      · rintro (h | h)
        · exact Or.inl h
        · exact Or.inr (List.mem_cons_of_mem _ h)
      · rintro (h | h)
        · exact Or.inl h
        · rcases List.mem_cons.mp h with h | h
          · exact Or.inl (h ▸ hv)
          · exact Or.inr h
    · simp only [List.mem_append, List.mem_singleton, List.mem_cons]
      tauto

theorem nodup_foldl_unionTag (vs tags : List String) (h : tags.Nodup) :
    (vs.foldl unionTag tags).Nodup := by
  induction vs generalizing tags with
  | nil => exact h
  | cons v vs ih =>
    rw [List.foldl_cons]
    apply ih
    unfold unionTag
    split_ifs with hv
    · exact h
    · rw [List.nodup_append]
      refine ⟨h, List.nodup_singleton v, ?_⟩
      intro a ha hb
      rw [List.mem_singleton] at hb
      exact hv (hb ▸ ha)

/-- C9: on a claim with no tags, add-tag(X) followed by remove-tag(Y) leaves
tags without duplicates whose members are exactly the lowercased members of X
that are not lowercased members of Y. -/
theorem tag_round_trip (claim : UserClaims) (X Y : String) (hempty : claim.Tags = []) :
    (removeTag (addTag claim X) Y).Tags.Nodup ∧
    (∀ t, t ∈ (removeTag (addTag claim X) Y).Tags ↔
      t ∈ (members X).map lowercase ∧ t ∉ (members Y).map lowercase) := by
  constructor
  · simp only [removeTag, addTag, hempty]
    exact (nodup_foldl_unionTag _ [] List.nodup_nil).filter _
  · intro t
    simp only [removeTag, addTag, hempty, List.mem_filter, mem_foldl_unionTag,
      members_lowercase]
    simp

/-- C9 at the input of `Test_EditUser_Tag`: `--tag A,B,C` gives the tags
`a`, `b`, `c`, and `--rm-tag A,B` then leaves exactly `c`. -/
theorem tag_round_trip_witness :
    (addTag userByAccount "A,B,C").Tags = ["a", "b", "c"] ∧
    (removeTag (addTag userByAccount "A,B,C") "A,B").Tags = ["c"] ∧
    ((removeTag (addTag userByAccount "A,B,C") "A,B").Tags.Nodup ∧
      ∀ t, t ∈ (removeTag (addTag userByAccount "A,B,C") "A,B").Tags ↔
        t ∈ (members "A,B,C").map lowercase ∧ t ∉ (members "A,B").map lowercase) :=
  ⟨by decide, by decide, tag_round_trip userByAccount "A,B,C" "A,B" (by decide)⟩

/-! ## Resolving the key flag -/

/-- C10: with an empty `KeyPathFlag`, `ResolveKeyFlag` returns no key pair and
no error; with a non-empty one it returns the key pair of
`store.ResolveKey(KeyPathFlag)` and no error when that call reports no error,
and no key pair together with the error of that call when it reports one. It
returns an error exactly when the flag is set and the resolver reports an
error. -/
theorem ResolveKeyFlag_resolves_flag (w : World) (KeyPathFlag : String) :
    (KeyPathFlag = "" → ResolveKeyFlag w KeyPathFlag = (none, none)) ∧
    (KeyPathFlag ≠ "" → (w.ResolveKey KeyPathFlag).2 = none →
      ResolveKeyFlag w KeyPathFlag = ((w.ResolveKey KeyPathFlag).1, none)) ∧
    (KeyPathFlag ≠ "" → ∀ err, (w.ResolveKey KeyPathFlag).2 = some err →
      ResolveKeyFlag w KeyPathFlag = (none, some err)) ∧
    ((ResolveKeyFlag w KeyPathFlag).2 ≠ none ↔
      KeyPathFlag ≠ "" ∧ (w.ResolveKey KeyPathFlag).2 ≠ none) := by
  unfold ResolveKeyFlag
  by_cases hflag : KeyPathFlag = ""
  · simp [hflag]
  · rcases hres : w.ResolveKey KeyPathFlag with ⟨kp, _ | err⟩
    · simp [hflag]
    · simp [hflag]

/-- C10 at concrete inputs: no flag, a flag naming a seed the resolver knows,
and a flag it cannot resolve. -/
theorem ResolveKeyFlag_resolves_flag_witness :
    ResolveKeyFlag (sampleWorld 2 false) "" = (none, none) ∧
    ResolveKeyFlag (sampleWorld 2 false) "SAASEED" = (some signingKey, none) ∧
    ResolveKeyFlag (sampleWorld 2 false) "nokey" = (none, some "unable to resolve any key") :=
  ⟨(ResolveKeyFlag_resolves_flag (sampleWorld 2 false) "").1 (by decide),
   (ResolveKeyFlag_resolves_flag (sampleWorld 2 false) "SAASEED").2.1 (by decide) (by decide),
   (ResolveKeyFlag_resolves_flag (sampleWorld 2 false) "nokey").2.2.1 (by decide) _ (by decide)⟩

/-! ## The exemption of `keys migrate` and stores that are not gated -/

/-- The outcome of the key-store check on a command that is not `keys migrate`:
the error of `KeysNeedMigration` if it reports one, the needs-migration error
if it reports true, nil otherwise. -/
theorem keystoreCheck_outcome (w : World) (s : State)
    (hm : isKeysMigrate s.cmd = some false) :
    (keystoreCheck w s).1 =
      match w.KeysNeedMigration with
      | (_, some err) => .error (.keysInspection err)
      | (true, none) =>
        .error (.keystoreNeedsMigration (w.AbbrevHomePaths w.GetKeysDir) w.args0)
      | (false, none) => .ok := by
  rcases hk : w.KeysNeedMigration with ⟨needs, _ | err⟩
  · cases needs with
    | true => rw [keystoreCheck_of_needed w s hm hk]
    | false => rw [keystoreCheck_of_clean w s hm hk]
  · rw [keystoreCheck_of_failed w s needs err hm hk]
    cases needs <;> rfl

theorem isKeysMigrate_keys (cmd : Command) (hname : cmd.Name = "migrate")
    (hparent : cmd.Parent = some "keys") : isKeysMigrate cmd = some true := by
  simp [isKeysMigrate, hname, hparent]

theorem isKeysMigrate_other_parent (cmd : Command) (p : String) (hname : cmd.Name = "migrate")
    (hparent : cmd.Parent = some p) (hp : p ≠ "keys") : isKeysMigrate cmd = some false := by
  simp [isKeysMigrate, hname, hparent, hp]

/-- The store-version check returns nothing when there is no store, no operator
claim, or a claim at a version other than 1. -/
theorem storeVersionCheck_none_of_no_store (w : World) (cmd : Command) :
    storeVersionCheck w none cmd = none := rfl

theorem storeVersionCheck_none_of_no_claim (w : World) (store : Store) (cmd : Command)
    (hclaim : store.OperatorClaim = none) :
    storeVersionCheck w (some store) cmd = none := by
  simp [storeVersionCheck, hclaim]

/-- C11: for the command named `migrate` whose parent is named `keys`, whenever
the store-version check does not block, the gate returns nil and leaves the
command as it was, and it does so whatever `KeysNeedMigration` would return
(true, or an error): the key store is not consulted. A command named `migrate`
under a parent with another name gets the outcome of the key-store check. -/
theorem keys_migrate_exempt (w : World) (s : State)
    (hpass : storeVersionCheck w (GetStore w s.config).1.1 s.cmd = none)
    (hname : s.cmd.Name = "migrate") :
    (s.cmd.Parent = some "keys" →
      PersistentPreRunE w s = (.ok, { s with config := (GetStore w s.config).2 }) ∧
      ∀ k : Bool × Option GoError,
        PersistentPreRunE { w with KeysNeedMigration := k } s =
          (.ok, { s with config := (GetStore w s.config).2 })) ∧
    (∀ p, s.cmd.Parent = some p → p ≠ "keys" →
      (PersistentPreRunE w s).1 =
        match w.KeysNeedMigration with
        | (_, some err) => .error (.keysInspection err)
        | (true, none) =>
          .error (.keystoreNeedsMigration (w.AbbrevHomePaths w.GetKeysDir) w.args0)
        | (false, none) => .ok) := by
  constructor
  · intro hparent
    have hm := isKeysMigrate_keys s.cmd hname hparent
    constructor
    · rw [gate_of_passed w s hpass]
      exact keystoreCheck_of_exempt w { s with config := (GetStore w s.config).2 } hm
    · intro k
      have hpass2 : storeVersionCheck { w with KeysNeedMigration := k }
          (GetStore { w with KeysNeedMigration := k } s.config).1.1 s.cmd = none := hpass
      rw [gate_of_passed { w with KeysNeedMigration := k } s hpass2]
      exact keystoreCheck_of_exempt { w with KeysNeedMigration := k }
        { s with config := (GetStore w s.config).2 } hm
  · intro p hparent hp
    have hm := isKeysMigrate_other_parent s.cmd p hname hparent hp
    rw [gate_of_passed w s hpass]
    exact keystoreCheck_outcome w { s with config := (GetStore w s.config).2 } hm

/-- C11 at concrete inputs, against the version 2 store `O`: `nsc keys migrate`
gets nil when the key store needs migration and when inspecting it fails; a
command `migrate` under the parent `tools` gets the needs-migration error. -/
theorem keys_migrate_exempt_witness :
    (PersistentPreRunE (sampleWorld 2 true) { config := sampleConfig, cmd := keysMigrateCmd } =
      (.ok, { config := sampleConfig, cmd := keysMigrateCmd })) ∧
    (PersistentPreRunE failingKeysWorld { config := sampleConfig, cmd := keysMigrateCmd } =
      (.ok, { config := sampleConfig, cmd := keysMigrateCmd })) ∧
    ((PersistentPreRunE (sampleWorld 2 true)
      { config := sampleConfig, cmd := toolsMigrateCmd }).1 =
      .error (.keystoreNeedsMigration "~/.nkeys" "nsc")) :=
  ⟨((keys_migrate_exempt (sampleWorld 2 true) { config := sampleConfig, cmd := keysMigrateCmd }
      (by decide) (by decide)).1 (by decide)).1,
   ((keys_migrate_exempt (sampleWorld 2 false) { config := sampleConfig, cmd := keysMigrateCmd }
      (by decide) (by decide)).1 (by decide)).2 (true, some "cannot read the keys directory"),
   (keys_migrate_exempt (sampleWorld 2 true) { config := sampleConfig, cmd := toolsMigrateCmd }
      (by decide) (by decide)).2 "tools" (by decide) (by decide)⟩

/-- C12: when `GetStore` returns no store, or the store yields no operator
claim, or the claim is at version 0, the store-version check returns nothing
for every command, and for every dispatched command other than `keys migrate`
the outcome of the gate is that of the key-store check: the error of
`KeysNeedMigration` if it reports one, the needs-migration error if it reports
true, nil otherwise. -/
theorem unversioned_store_not_gated (w : World) (s : State)
    (hstore : (GetStore w s.config).1.1 = none ∨
      ∃ store, (GetStore w s.config).1.1 = some store ∧
        (store.OperatorClaim = none ∨ ∃ c, store.OperatorClaim = some c ∧ c.Version = 0)) :
    (∀ cmd, storeVersionCheck w (GetStore w s.config).1.1 cmd = none) ∧
    (s.cmd.dispatched → ¬ (s.cmd.Name = "migrate" ∧ s.cmd.Parent = some "keys") →
      (PersistentPreRunE w s).1 =
        match w.KeysNeedMigration with
        | (_, some err) => .error (.keysInspection err)
        | (true, none) =>
          .error (.keystoreNeedsMigration (w.AbbrevHomePaths w.GetKeysDir) w.args0)
        | (false, none) => .ok) := by
  have hpass : ∀ cmd, storeVersionCheck w (GetStore w s.config).1.1 cmd = none := by
    intro cmd
    rcases hstore with hnone | ⟨store, hsome, hclaim | ⟨c, hclaim, hv⟩⟩
    · rw [hnone]
      rfl
    · rw [hsome]
      exact storeVersionCheck_none_of_no_claim w store cmd hclaim
    · rw [hsome]
      exact storeVersionCheck_other w store c cmd hclaim (by rw [hv]; decide)
  refine ⟨hpass, fun hdisp hcmd => ?_⟩
  have hm := isKeysMigrate_of_dispatched s.cmd hdisp hcmd
  rw [gate_of_passed w s (hpass s.cmd)]
  exact keystoreCheck_outcome w { s with config := (GetStore w s.config).2 } hm

/-- C12 at concrete inputs, for `nsc edit user`: with no store root the gate
returns the needs-migration error of the key store; with a store that yields
no operator claim it returns nil when the key store is clean; with the store
`O` at version 0 it passes on the error of a failing key-store inspection. -/
theorem unversioned_store_not_gated_witness :
    ((GetStore (sampleWorld 2 true) noStoreConfig).1 = (none, some "no stores available") ∧
      (PersistentPreRunE (sampleWorld 2 true) { config := noStoreConfig, cmd := editUserCmd }).1 =
        .error (.keystoreNeedsMigration "~/.nkeys" "nsc")) ∧
    ((PersistentPreRunE (noClaimWorld false) { config := sampleConfig, cmd := editUserCmd }).1 =
      .ok) ∧
    ((PersistentPreRunE
        { sampleWorld 0 false with KeysNeedMigration := (false, some "cannot read the keys") }
        { config := sampleConfig, cmd := editUserCmd }).1 =
      .error (.keysInspection "cannot read the keys")) :=
  ⟨⟨by decide,
    (unversioned_store_not_gated (sampleWorld 2 true)
      { config := noStoreConfig, cmd := editUserCmd } (Or.inl (by decide))).2
      (by decide) (by decide)⟩,
   (unversioned_store_not_gated (noClaimWorld false)
      { config := sampleConfig, cmd := editUserCmd }
      (Or.inr ⟨{ Name := "O", DefaultAccount := "", OperatorClaim := none },
        by decide, Or.inl (by decide)⟩)).2 (by decide) (by decide),
   (unversioned_store_not_gated
      { sampleWorld 0 false with KeysNeedMigration := (false, some "cannot read the keys") }
      { config := sampleConfig, cmd := editUserCmd }
      (Or.inr ⟨sampleStore 0, by decide, Or.inr ⟨{ Version := 0 }, by decide, by decide⟩⟩)).2
      (by decide) (by decide)⟩

end Nsc
